import Mathlib

/-!
Shallow embedding of `src/agent/defai-agent.py` (100x Jackpot DeFAI agent).

The agent runs three long-lived asyncio task loops:
 * `monitor_game_events` (lines 65-147): polls four web3 event filters,
   reacts to each returned event, sleeps 30s on success, 60s on error;
 * `daily_jackpot_summary` (lines 182-208): posts a daily summary,
   sleeps 86400s on success, 3600s on error;
 * `on_chain_interaction` (lines 210-262): submits an engagement
   transaction during the first 5 minutes of hours 12 and 18, sleeps
   10800s after a submission, 900s outside the windows, 3600s on error.
`post_to_twitter` (lines 149-180) formats a tweet, truncates it to 280
characters, publishes it, and swallows every exception, returning a Bool.

External collaborators (web3 chain reads, the publish side-effect, and
Python's seed-dependent built-in `hash` for `str`) are modelled as
explicit oracle parameters; a raised Python exception is an
`Except AgentError` error value.  Strings passed to the publisher are
modelled at character level (`List Char`), matching Python `str` slicing
and `len` on code points.
-/

/-- A raised Python exception, as seen by the agent's `except` blocks.
`transport` stands for a failed chain read/write, `postFail` for a
failure inside the publish side-effect. -/
inductive AgentError where
  | transport
  | postFail
  deriving Repr, DecidableEq

/-- `SocialAnnouncement` event payload (lines 87-88). -/
structure SocialEvent where
  announcementType : String
  message : String
  deriving Repr, DecidableEq

/-- `GuessCommitted` event payload (line 99). -/
structure GuessCommittedEvent where
  player : String
  deriving Repr, DecidableEq

/-- `GuessRevealed` event payload (lines 115-117). -/
structure GuessRevealedEvent where
  player : String
  guess : String
  won : Bool
  deriving Repr, DecidableEq

/-- `JackpotWon` event payload (lines 134-136). -/
structure JackpotWonEvent where
  winner : String
  amount : Nat
  guess : String
  deriving Repr, DecidableEq

/-- Result of `get_jackpot_info()` (lines 50-61): `jackpot_s` is the
already-formatted ether amount (the `from_wei` + `:.2f` rendering is a
thin wrapper owned by the chain-reader collaborator). -/
structure JackpotInfo where
  jackpot_s : String
  total_guesses : Nat
  unique_players : Nat
  deriving Repr, DecidableEq

/-- `EVENT_DESCRIPTIONS` dict (lines 41-47). -/
def EVENT_DESCRIPTIONS : List (String × String) :=
  [("NEW_SECRET", "A new secret word has been set in the 100x Jackpot game! Can you guess it?"),
   ("JACKPOT_FUNDED", "The 100x Jackpot just got bigger! More prizes to win!"),
   ("JACKPOT_WON", "🚨 We have a WINNER! 🚨 Someone just cracked the secret word!"),
   ("NEW_HINT", "A new hint is available to help you guess the secret word!"),
   ("LARGE_BATCH", "Just processed a lot of tokens! The jackpot is growing fast!")]

/-- `EVENT_DESCRIPTIONS.get(announcement_type, "")` (line 157). -/
def getDescription (announcementType : String) : String :=
  (EVENT_DESCRIPTIONS.lookup announcementType).getD ""

/-- The fixed hashtag suffix appended to every tweet (line 161). -/
def hashtags : String := "\n\n#100xJackpot #SonicNetwork #Blockchain #CryptoGames"

/-- Tweet assembly (lines 163-166): prepend the standard description when
one exists, then append the hashtags.  Characters of the Python `str`. -/
def formatTweet (announcementType message : String) : List Char :=
  let description := getDescription announcementType
  if description ≠ "" then
    (description ++ "\n\n" ++ message ++ hashtags).data
  else
    (message ++ hashtags).data

/-- Truncation (lines 169-170): `if len(tweet) > 280: tweet = tweet[:277] + "..."`. -/
def trimTweet (tweet : List Char) : List Char :=
  if tweet.length > 280 then tweet.take 277 ++ "...".data else tweet

/-- Body of `post_to_twitter`s `try` block (lines 152-177): format,
trim, and hand the tweet to the publish side-effect (the `print` /
`api.update_status` call), which may raise. -/
def post_body (publish : List Char → Except AgentError Unit)
    (announcementType message : String) : Except AgentError Unit :=
  publish (trimTweet (formatTweet announcementType message))

/-- `post_to_twitter` (lines 149-180): returns `True` when the body ran
to completion, catches any exception and returns `False` (lines 178-180).
It never re-raises, so its own result is always `Except.ok`. -/
def post_to_twitter (publish : List Char → Except AgentError Unit)
    (announcementType message : String) : Except AgentError Bool :=
  match post_body publish announcementType message with
  | Except.ok _ => Except.ok true
  | Except.error _ => Except.ok false

/-- Milestone tweet text (lines 107-110), an f-string over the directly
fetched `total_guesses` and the snapshot's players/jackpot fields. -/
def milestoneMessage (totalGuesses uniquePlayers : Nat) (jackpot_s : String) : String :=
  "We\x27ve reached " ++ toString totalGuesses ++ " guesses from " ++
    toString uniquePlayers ++ " players! Current jackpot: " ++ jackpot_s ++
    " S. Will you be the one to crack the secret?"

/-- The `(announcement_type, message)` pair passed to `post_to_twitter`
for a milestone (lines 106-110). -/
def milestonePost (totalGuesses : Nat) (info : JackpotInfo) : String × String :=
  ("GUESS_MILESTONE", milestoneMessage totalGuesses info.unique_players info.jackpot_s)

/-- Commentary tweet text for an interesting losing guess (lines 127-128). -/
def interestingGuessMessage (guess : String) : String :=
  "Someone just guessed \x27" ++ guess ++ "\x27 - nice try but not the secret word! " ++
    "The jackpot continues to grow! Take a hint and try your luck!"

/-- The `(announcement_type, message)` pair passed to `post_to_twitter`
for an interesting guess (lines 125-129). -/
def interestingPost (guess : String) : String × String :=
  ("INTERESTING_GUESS", interestingGuessMessage guess)

/-- Daily summary tweet text (lines 191-198). -/
def dailySummaryMessage (info : JackpotInfo) : String :=
  "📊 Daily 100x Jackpot Update 📊\n\nCurrent Jackpot: " ++ info.jackpot_s ++
    " S\nTotal Guesses: " ++ toString info.total_guesses ++
    "\nUnique Players: " ++ toString info.unique_players ++
    "\n\nWill today be the day someone cracks the secret word? " ++
    "Buy 100x tokens and take your chance!"

/-- Engagement message rotation (lines 229-233). -/
def engagementMessages (jackpot_s : String) : List String :=
  ["It\x27s game time! The 100x Jackpot stands at " ++ jackpot_s ++
     " S. Can you guess the secret word?",
   "Feeling lucky? Our jackpot is now " ++ jackpot_s ++
     " S! Buy some 100x tokens and make your guess!",
   "100x Challenge: Guess the secret word and win " ++ jackpot_s ++
     " S! Hints are available!"]

/-- A raw event observed by the monitoring loop, tagged by the filter
that returned it.  "Passed to the classifier" for an event means its
per-event `for`-loop body was entered (lines 86, 98, 114, 133). -/
inductive ObservedEvent where
  | social (e : SocialEvent)
  | guess (e : GuessCommittedEvent)
  | reveal (e : GuessRevealedEvent)
  | win (e : JackpotWonEvent)
  deriving Repr, DecidableEq

/-- External collaborators of one `monitor_game_events` cycle.
`pyHash` models Python's built-in `hash` on `str` (line 124), which is
SipHash keyed by the per-process `PYTHONHASHSEED`: fixed within one
process run, but varying between runs.  `tgCall i` / `infoCall i` are
the results of the i-th per-guess-event `totalGuesses().call()`
(line 103) and `get_jackpot_info()` (line 105); `latestHeight` is the
chain head the event filters poll up to in this cycle. -/
structure MonitorOracles where
  publish : List Char → Except AgentError Unit
  pyHash : String → Int
  tgCall : Nat → Except AgentError Nat
  infoCall : Nat → Except AgentError JackpotInfo
  latestHeight : Nat

/-- Monitoring-task state: per-filter pending entries (events emitted
since that filter's cursor) and the cursor heights the filters have
polled up to.  `get_new_entries()` (lines 85, 97, 113, 132) returns the
pending entries and advances the cursor to the chain head at fetch
time; an entry returned once is never returned again. -/
structure MonitorState where
  socialPending : List SocialEvent
  guessPending : List GuessCommittedEvent
  revealPending : List GuessRevealedEvent
  winPending : List JackpotWonEvent
  socialCursor : Nat
  guessCursor : Nat
  revealCursor : Nat
  winCursor : Nat
  deriving Repr, DecidableEq

/-- Lines 85-94: the `for`-loop over new `SocialAnnouncement` entries.
Each event is posted; a raised exception would abort the rest of the
batch (third component), though `post_to_twitter` never raises.
Returns (events whose loop body ran, post calls made, abort). -/
def processSocialBatch (publish : List Char → Except AgentError Unit) :
    List SocialEvent → List ObservedEvent × List (String × String) × Option AgentError
  | [] => ([], [], none)
  | e :: rest =>
    match post_to_twitter publish e.announcementType e.message with
    | Except.error err => ([ObservedEvent.social e], [(e.announcementType, e.message)], some err)
    | Except.ok _ =>
      let r := processSocialBatch publish rest
      (ObservedEvent.social e :: r.1, (e.announcementType, e.message) :: r.2.1, r.2.2)

/-- Lines 97-110: the `for`-loop over new `GuessCommitted` entries.
For each event the loop fetches `totalGuesses` (line 103, may raise) and,
when it is a multiple of 10, fetches the snapshot (line 105, may raise)
and posts a milestone.  A raise aborts the remaining events of the
batch.  `i` indexes the chain reads in fetch order. -/
def processGuessBatch (publish : List Char → Except AgentError Unit)
    (tgCall : Nat → Except AgentError Nat)
    (infoCall : Nat → Except AgentError JackpotInfo) :
    Nat → List GuessCommittedEvent →
      List ObservedEvent × List (String × String) × Option AgentError
  | _, [] => ([], [], none)
  | i, e :: rest =>
    match tgCall i with
    | Except.error err => ([ObservedEvent.guess e], [], some err)
    | Except.ok total_guesses =>
      if total_guesses % 10 = 0 then
        match infoCall i with
        | Except.error err => ([ObservedEvent.guess e], [], some err)
        | Except.ok info =>
          match post_to_twitter publish (milestonePost total_guesses info).1
              (milestonePost total_guesses info).2 with
          | Except.error err =>
            ([ObservedEvent.guess e], [milestonePost total_guesses info], some err)
          | Except.ok _ =>
            let r := processGuessBatch publish tgCall infoCall (i + 1) rest
            (ObservedEvent.guess e :: r.1, milestonePost total_guesses info :: r.2.1, r.2.2)
      else
        let r := processGuessBatch publish tgCall infoCall (i + 1) rest
        (ObservedEvent.guess e :: r.1, r.2.1, r.2.2)

/-- Lines 113-129: the `for`-loop over new `GuessRevealed` entries.
A losing guess longer than 5 characters whose `hash(guess) % 5 == 0`
(Python `%`, i.e. `Int.emod`) gets a commentary post. -/
def processRevealBatch (publish : List Char → Except AgentError Unit)
    (pyHash : String → Int) :
    List GuessRevealedEvent →
      List ObservedEvent × List (String × String) × Option AgentError
  | [] => ([], [], none)
  | e :: rest =>
    if e.won = false ∧ 5 < e.guess.length then
      if pyHash e.guess % 5 = 0 then
        match post_to_twitter publish (interestingPost e.guess).1 (interestingPost e.guess).2 with
        | Except.error err => ([ObservedEvent.reveal e], [interestingPost e.guess], some err)
        | Except.ok _ =>
          let r := processRevealBatch publish pyHash rest
          (ObservedEvent.reveal e :: r.1, interestingPost e.guess :: r.2.1, r.2.2)
      else
        let r := processRevealBatch publish pyHash rest
        (ObservedEvent.reveal e :: r.1, r.2.1, r.2.2)
    else
      let r := processRevealBatch publish pyHash rest
      (ObservedEvent.reveal e :: r.1, r.2.1, r.2.2)

/-- One pass of the `while True` body of `monitor_game_events`
(lines 82-141, before the sleeps): fetch and process the four filters in
source order.  Fetching a filter clears its pending entries and advances
its cursor to the chain head; an exception anywhere jumps to the
`except` handler (line 145) with all state changes made so far kept.
Returns (state, events classified, post calls made, errored). -/
def monitorCycleCore (o : MonitorOracles) (st : MonitorState) :
    MonitorState × List ObservedEvent × List (String × String) × Bool :=
  let st1 : MonitorState :=
    { st with socialPending := [], socialCursor := o.latestHeight }
  match processSocialBatch o.publish st.socialPending with
  | (cs1, ps1, some _) => (st1, cs1, ps1, true)
  | (cs1, ps1, none) =>
    let st2 : MonitorState :=
      { st1 with guessPending := [], guessCursor := o.latestHeight }
    match processGuessBatch o.publish o.tgCall o.infoCall 0 st.guessPending with
    | (cs2, ps2, some _) => (st2, cs1 ++ cs2, ps1 ++ ps2, true)
    | (cs2, ps2, none) =>
      let st3 : MonitorState :=
        { st2 with revealPending := [], revealCursor := o.latestHeight }
      match processRevealBatch o.publish o.pyHash st.revealPending with
      | (cs3, ps3, some _) => (st3, cs1 ++ cs2 ++ cs3, ps1 ++ ps2 ++ ps3, true)
      | (cs3, ps3, none) =>
        let st4 : MonitorState :=
          { st3 with winPending := [], winCursor := o.latestHeight }
        let cs4 := st.winPending.map ObservedEvent.win
        (st4, cs1 ++ cs2 ++ cs3 ++ cs4, ps1 ++ ps2 ++ ps3, false)

/-- Outcome of one monitoring cycle, including the sleep chosen at
lines 143 (success, 30s) and 147 (error, 60s). -/
structure MonitorResult where
  state : MonitorState
  classified : List ObservedEvent
  posts : List (String × String)
  errored : Bool
  sleep : Nat
  deriving Repr, DecidableEq

/-- One full monitoring cycle including the sleep choice. -/
def monitorCycle (o : MonitorOracles) (st : MonitorState) : MonitorResult :=
  let r := monitorCycleCore o st
  ⟨r.1, r.2.1, r.2.2.1, r.2.2.2, if r.2.2.2 then 60 else 30⟩

/-- Collaborators of one `daily_jackpot_summary` cycle: the snapshot
read (lines 50-61 via line 188, may raise) and the publisher. -/
structure DailyOracles where
  publish : List Char → Except AgentError Unit
  info : Except AgentError JackpotInfo

/-- Outcome of one daily-summary cycle: post calls made, whether the
`except` handler ran, and the sleep (86400s at line 204, 3600s at 208). -/
structure DailyResult where
  posts : List (String × String)
  errored : Bool
  sleep : Nat
  deriving Repr, DecidableEq

/-- One pass of the `while True` body of `daily_jackpot_summary`
(lines 185-202, before the sleeps). -/
def dailyCycleCore (o : DailyOracles) : List (String × String) × Bool :=
  match o.info with
  | Except.error _ => ([], true)
  | Except.ok info =>
    match post_to_twitter o.publish "DAILY_SUMMARY" (dailySummaryMessage info) with
    | Except.error _ => ([("DAILY_SUMMARY", dailySummaryMessage info)], true)
    | Except.ok _ => ([("DAILY_SUMMARY", dailySummaryMessage info)], false)

/-- One full daily-summary cycle including the sleep choice. -/
def dailyCycle (o : DailyOracles) : DailyResult :=
  let r := dailyCycleCore o
  ⟨r.1, r.2, if r.2 then 3600 else 86400⟩

/-- Wall-clock reading used by `on_chain_interaction` (lines 221-236):
`datetime.now().hour`, `.minute` and `.day`. -/
structure WallClock where
  hour : Nat
  minute : Nat
  day : Nat
  deriving Repr, DecidableEq

/-- The transaction built at lines 240-245. -/
structure Tx where
  message : String
  nonce : Nat
  gas : Nat
  gasPrice : Nat
  deriving Repr, DecidableEq

/-- Collaborators of one `on_chain_interaction` cycle: the snapshot
read (line 226), the nonce fetch (line 242), the gas-price fetch
(line 244) and the raw-transaction send (line 249); each may raise. -/
structure OnChainOracles where
  info : Except AgentError JackpotInfo
  nonce : Except AgentError Nat
  gasPrice : Except AgentError Nat
  send : Except AgentError Unit

/-- Outcome of one on-chain cycle: the transaction handed to
`send_raw_transaction` (if any), whether the `except` handler ran, and
the sleep (10800s at line 255, 900s at line 258, 3600s at line 262). -/
structure OnChainResult where
  submitted : Option Tx
  errored : Bool
  sleep : Nat
  deriving Repr, DecidableEq

/-- One pass of the `while True` body of `on_chain_interaction`
(lines 219-258, before the sleeps).  Returns (transaction submitted,
errored, window check passed).  The window test is line 224:
`current_hour in [12, 18] and datetime.now().minute < 5`. -/
def onChainCycleCore (t : WallClock) (o : OnChainOracles) :
    Option Tx × Bool × Bool :=
  if (t.hour = 12 ∨ t.hour = 18) ∧ t.minute < 5 then
    match o.info with
    | Except.error _ => (none, true, true)
    | Except.ok info =>
      let ms := engagementMessages info.jackpot_s
      let game_update := ms.getD (t.day % ms.length) ""
      match o.nonce with
      | Except.error _ => (none, true, true)
      | Except.ok nonceValue =>
        match o.gasPrice with
        | Except.error _ => (none, true, true)
        | Except.ok gp =>
          let tx : Tx := ⟨game_update, nonceValue, 200000, gp⟩
          match o.send with
          | Except.error _ => (some tx, true, true)
          | Except.ok _ => (some tx, false, true)
  else (none, false, false)

/-- One full on-chain cycle including the sleep choice. -/
def onChainCycle (t : WallClock) (o : OnChainOracles) : OnChainResult :=
  let r := onChainCycleCore t o
  ⟨r.1, r.2.1, if r.2.1 then 3600 else if r.2.2 then 10800 else 900⟩

/-- Events newly emitted by the contract between two monitoring cycles;
they join the corresponding filters' pending entries. -/
structure MonitorArrivals where
  social : List SocialEvent
  guesses : List GuessCommittedEvent
  reveals : List GuessRevealedEvent
  wins : List JackpotWonEvent

/-- Append newly emitted events to the filters' pending entries. -/
def addArrivals (a : MonitorArrivals) (st : MonitorState) : MonitorState :=
  { st with
    socialPending := st.socialPending ++ a.social
    guessPending := st.guessPending ++ a.guesses
    revealPending := st.revealPending ++ a.reveals
    winPending := st.winPending ++ a.wins }

/-- `n` consecutive iterations of the `monitor_game_events` loop
(line 82), with per-cycle collaborator behaviours and arrivals. -/
def runMonitor (o : Nat → MonitorOracles) (a : Nat → MonitorArrivals) :
    Nat → MonitorState → List MonitorResult
  | 0, _ => []
  | n + 1, st =>
    let r := monitorCycle (o 0) (addArrivals (a 0) st)
    r :: runMonitor (fun k => o (k + 1)) (fun k => a (k + 1)) n r.state

/-- `n` consecutive iterations of the `daily_jackpot_summary` loop
(line 185), with per-cycle collaborator behaviours. -/
def runDaily (o : Nat → DailyOracles) : Nat → List DailyResult
  | 0 => []
  | n + 1 => dailyCycle (o 0) :: runDaily (fun k => o (k + 1)) n

/-- `n` consecutive iterations of the `on_chain_interaction` loop
(line 218), with per-cycle wall-clock readings and collaborators. -/
def runOnChain (t : Nat → WallClock) (o : Nat → OnChainOracles) :
    Nat → List OnChainResult
  | 0 => []
  | n + 1 =>
    onChainCycle (t 0) (o 0) ::
      runOnChain (fun k => t (k + 1)) (fun k => o (k + 1)) n

/-- The commentary posts the reveal batch makes, as a pure function of
the hash function and the events. -/
def revealPosts (pyHash : String → Int) (es : List GuessRevealedEvent) :
    List (String × String) :=
  es.filterMap fun e =>
    if e.won = false ∧ 5 < e.guess.length ∧ pyHash e.guess % 5 = 0 then
      some (interestingPost e.guess)
    else none

/-- All events sitting in the filters' pending entries, in the order the
monitoring cycle fetches them. -/
def observedOf (st : MonitorState) : List ObservedEvent :=
  st.socialPending.map ObservedEvent.social ++
    st.guessPending.map ObservedEvent.guess ++
    st.revealPending.map ObservedEvent.reveal ++
    st.winPending.map ObservedEvent.win

/-- A monitoring state with the given pending filter entries and all
cursors at height 0. -/
def pendingState (social : List SocialEvent) (guesses : List GuessCommittedEvent)
    (reveals : List GuessRevealedEvent) (wins : List JackpotWonEvent) : MonitorState :=
  ⟨social, guesses, reveals, wins, 0, 0, 0, 0⟩

/-- A publisher that always succeeds. -/
def okPublish : List Char → Except AgentError Unit := fun _ => Except.ok ()

/-- A concrete jackpot snapshot used in concrete scenarios. -/
def sampleInfo : JackpotInfo := ⟨"5.00", 30, 7⟩

/-- No events arrive between cycles. -/
def noArrivals : MonitorArrivals := ⟨[], [], [], []⟩

/-- Monitoring collaborators whose chain reads all raise. -/
def failMonitorOracles : MonitorOracles :=
  ⟨okPublish, fun _ => 0, fun _ => Except.error AgentError.transport,
   fun _ => Except.error AgentError.transport, 10⟩

/-- Daily-summary collaborators whose snapshot read raises. -/
def failDailyOracles : DailyOracles := ⟨okPublish, Except.error AgentError.transport⟩

/-- On-chain collaborators whose calls all raise. -/
def failOnChainOracles : OnChainOracles :=
  ⟨Except.error AgentError.transport, Except.error AgentError.transport,
   Except.error AgentError.transport, Except.error AgentError.transport⟩

/-- A wall-clock reading at the start of the noon window. -/
def noonClock : WallClock := ⟨12, 0, 1⟩

/-- A wall-clock reading inside the noon window. -/
def windowClock : WallClock := ⟨12, 3, 7⟩

/-- On-chain collaborators whose calls all succeed. -/
def okOnChainOracles : OnChainOracles :=
  ⟨Except.ok sampleInfo, Except.ok 4, Except.ok 10, Except.ok ()⟩

/-- Monitoring collaborators whose calls all succeed, with
`totalGuesses = 7` (not a milestone). -/
def okMonitorOracles : MonitorOracles :=
  ⟨okPublish, fun _ => 0, fun _ => Except.ok 7, fun _ => Except.ok sampleInfo, 42⟩

/-- `post_to_twitter` never raises: its `except` clause (lines 178-180)
turns every failure into a returned `False`. -/
theorem post_to_twitter_ok (publish : List Char → Except AgentError Unit)
    (announcementType message : String) :
    ∃ b, post_to_twitter publish announcementType message = Except.ok b := by
  unfold post_to_twitter
  cases post_body publish announcementType message <;> exact ⟨_, rfl⟩

/-- The social batch is always fully processed: every event reaches its
loop body, every event is posted, and no exception escapes. -/
theorem processSocialBatch_eq (publish : List Char → Except AgentError Unit)
    (es : List SocialEvent) :
    processSocialBatch publish es =
      (es.map ObservedEvent.social,
       es.map (fun e => (e.announcementType, e.message)), none) := by
  induction es with
  | nil => rfl
  | cons e rest ih =>
    obtain ⟨b, hb⟩ := post_to_twitter_ok publish e.announcementType e.message
    simp [processSocialBatch, hb, ih]

/-- Unfolding `revealPosts` on a sampled head event. -/
theorem revealPosts_cons_pos (pyHash : String → Int) (e : GuessRevealedEvent)
    (rest : List GuessRevealedEvent)
    (h : e.won = false ∧ 5 < e.guess.length ∧ pyHash e.guess % 5 = 0) :
    revealPosts pyHash (e :: rest) =
      interestingPost e.guess :: revealPosts pyHash rest := by
  simp only [revealPosts, List.filterMap_cons, if_pos h]

/-- Unfolding `revealPosts` on an unsampled head event. -/
theorem revealPosts_cons_neg (pyHash : String → Int) (e : GuessRevealedEvent)
    (rest : List GuessRevealedEvent)
    (h : ¬(e.won = false ∧ 5 < e.guess.length ∧ pyHash e.guess % 5 = 0)) :
    revealPosts pyHash (e :: rest) = revealPosts pyHash rest := by
  simp only [revealPosts, List.filterMap_cons, if_neg h]

/-- The reveal batch is always fully processed; its posts are exactly
the sampled "nice try" commentaries and no exception escapes. -/
theorem processRevealBatch_eq (publish : List Char → Except AgentError Unit)
    (pyHash : String → Int) (es : List GuessRevealedEvent) :
    processRevealBatch publish pyHash es =
      (es.map ObservedEvent.reveal, revealPosts pyHash es, none) := by
  induction es with
  | nil => rfl
  | cons e rest ih =>
    obtain ⟨b, hb⟩ := post_to_twitter_ok publish
      (interestingPost e.guess).1 (interestingPost e.guess).2
    by_cases h1 : e.won = false ∧ 5 < e.guess.length
    · by_cases h2 : pyHash e.guess % 5 = 0
      · rw [revealPosts_cons_pos pyHash e rest ⟨h1.1, h1.2, h2⟩]
        simp only [processRevealBatch, if_pos h1, if_pos h2, hb, ih, List.map_cons]
      · rw [revealPosts_cons_neg pyHash e rest (fun h => h2 h.2.2)]
        simp only [processRevealBatch, if_pos h1, if_neg h2, ih, List.map_cons]
    · rw [revealPosts_cons_neg pyHash e rest (fun h => h1 ⟨h.1, h.2.1⟩)]
      simp only [processRevealBatch, if_neg h1, ih, List.map_cons]

/-- The guess batch's behaviour does not depend on the publisher:
`post_to_twitter` swallows publish failures. -/
theorem processGuessBatch_publish_irrel (p q : List Char → Except AgentError Unit)
    (tgCall : Nat → Except AgentError Nat)
    (infoCall : Nat → Except AgentError JackpotInfo) :
    ∀ (i : Nat) (es : List GuessCommittedEvent),
      processGuessBatch p tgCall infoCall i es =
        processGuessBatch q tgCall infoCall i es := by
  intro i es
  induction es generalizing i with
  | nil => rfl
  | cons e rest ih =>
    cases htg : tgCall i with
    | error err => simp [processGuessBatch, htg]
    | ok tg =>
      by_cases hmod : tg % 10 = 0
      · cases hinfo : infoCall i with
        | error err => simp [processGuessBatch, htg, hinfo, hmod]
        | ok info =>
          obtain ⟨b1, hb1⟩ := post_to_twitter_ok p
            (milestonePost tg info).1 (milestonePost tg info).2
          obtain ⟨b2, hb2⟩ := post_to_twitter_ok q
            (milestonePost tg info).1 (milestonePost tg info).2
          simp [processGuessBatch, htg, hinfo, hmod, hb1, hb2, ih]
      · simp [processGuessBatch, htg, hmod, ih]

/-- When the guess batch runs without a chain-read exception, every
event in it reaches its loop body. -/
theorem processGuessBatch_none_classified (p : List Char → Except AgentError Unit)
    (tgCall : Nat → Except AgentError Nat)
    (infoCall : Nat → Except AgentError JackpotInfo) :
    ∀ (i : Nat) (es : List GuessCommittedEvent),
      (processGuessBatch p tgCall infoCall i es).2.2 = none →
        (processGuessBatch p tgCall infoCall i es).1 = es.map ObservedEvent.guess := by
  intro i es
  induction es generalizing i with
  | nil => intro _; rfl
  | cons e rest ih =>
    intro hnone
    cases htg : tgCall i with
    | error err => simp [processGuessBatch, htg] at hnone
    | ok tg =>
      by_cases hmod : tg % 10 = 0
      · cases hinfo : infoCall i with
        | error err =>
          exfalso
          simp [processGuessBatch, htg, hinfo, hmod] at hnone
        | ok info =>
          obtain ⟨b, hb⟩ := post_to_twitter_ok p
            (milestonePost tg info).1 (milestonePost tg info).2
          simp [processGuessBatch, htg, hinfo, hmod, hb] at hnone ⊢
          exact ih (i + 1) hnone
      · simp [processGuessBatch, htg, hmod] at hnone ⊢
        exact ih (i + 1) hnone

/-- With chain reads returning a constant `totalGuesses` and snapshot,
the guess batch classifies every event and posts one identical
milestone per event when `totalGuesses` is a multiple of 10, none
otherwise. -/
theorem processGuessBatch_const (p : List Char → Except AgentError Unit)
    (tg : Nat) (info : JackpotInfo) :
    ∀ (i : Nat) (es : List GuessCommittedEvent),
      processGuessBatch p (fun _ => Except.ok tg) (fun _ => Except.ok info) i es =
        (es.map ObservedEvent.guess,
         if tg % 10 = 0 then es.map (fun _ => milestonePost tg info) else [],
         none) := by
  intro i es
  induction es generalizing i with
  | nil => simp [processGuessBatch]
  | cons e rest ih =>
    by_cases hmod : tg % 10 = 0
    · obtain ⟨b, hb⟩ := post_to_twitter_ok p
        (milestonePost tg info).1 (milestonePost tg info).2
      simp [processGuessBatch, hmod, hb, ih]
    · simp [processGuessBatch, hmod, ih]

/-- Characterization of one monitoring cycle: the social and reveal
batches never abort (posting swallows failures), so the cycle's outcome
is determined by the guess batch's chain reads.  In both cases the
social and guess cursors have advanced to the chain head. -/
theorem monitorCycleCore_eq (o : MonitorOracles) (st : MonitorState) :
    monitorCycleCore o st =
      match processGuessBatch o.publish o.tgCall o.infoCall 0 st.guessPending with
      | (cs2, ps2, some _) =>
        ({ st with socialPending := [], socialCursor := o.latestHeight,
                   guessPending := [], guessCursor := o.latestHeight },
         st.socialPending.map ObservedEvent.social ++ cs2,
         st.socialPending.map (fun e => (e.announcementType, e.message)) ++ ps2,
         true)
      | (cs2, ps2, none) =>
        ({ st with socialPending := [], guessPending := [],
                   revealPending := [], winPending := [],
                   socialCursor := o.latestHeight, guessCursor := o.latestHeight,
                   revealCursor := o.latestHeight, winCursor := o.latestHeight },
         st.socialPending.map ObservedEvent.social ++ cs2 ++
           st.revealPending.map ObservedEvent.reveal ++
           st.winPending.map ObservedEvent.win,
         st.socialPending.map (fun e => (e.announcementType, e.message)) ++ ps2 ++
           revealPosts o.pyHash st.revealPending,
         false) := by
  unfold monitorCycleCore
  rw [processSocialBatch_eq]
  generalize processGuessBatch o.publish o.tgCall o.infoCall 0 st.guessPending = r
  obtain ⟨cs2, ps2, er⟩ := r
  cases er with
  | none => simp [processRevealBatch_eq]
  | some e => simp

/-- The publisher's behaviour never influences a monitoring cycle's
state, classified events, recorded posts, or error flag. -/
theorem monitorCycle_publish_irrel (o : MonitorOracles)
    (p : List Char → Except AgentError Unit) (st : MonitorState) :
    monitorCycle { o with publish := p } st = monitorCycle o st := by
  unfold monitorCycle
  rw [monitorCycleCore_eq, monitorCycleCore_eq]
  simp only
  rw [processGuessBatch_publish_irrel p o.publish o.tgCall o.infoCall 0 st.guessPending]

/-- The social and guess cursors advance to the chain head in every
cycle, aborted or not: `get_new_entries` advances them at fetch time. -/
theorem monitorCycle_fetch_advances (o : MonitorOracles) (st : MonitorState) :
    (monitorCycle o st).state.socialCursor = o.latestHeight ∧
    (monitorCycle o st).state.guessCursor = o.latestHeight := by
  show (monitorCycleCore o st).1.socialCursor = o.latestHeight ∧
    (monitorCycleCore o st).1.guessCursor = o.latestHeight
  rw [monitorCycleCore_eq]
  rcases processGuessBatch o.publish o.tgCall o.infoCall 0 st.guessPending
    with ⟨cs2, ps2, er⟩
  cases er <;> exact ⟨rfl, rfl⟩

/-- A cycle that does not hit the `except` handler has passed every
pending event to its per-event loop body and advanced all cursors. -/
theorem monitorCycle_ok_classified (o : MonitorOracles) (st : MonitorState)
    (h : (monitorCycle o st).errored = false) :
    (monitorCycle o st).classified = observedOf st ∧
    (monitorCycle o st).state.socialCursor = o.latestHeight ∧
    (monitorCycle o st).state.guessCursor = o.latestHeight ∧
    (monitorCycle o st).state.revealCursor = o.latestHeight ∧
    (monitorCycle o st).state.winCursor = o.latestHeight := by
  have hcore : (monitorCycle o st).state = (monitorCycleCore o st).1 ∧
      (monitorCycle o st).classified = (monitorCycleCore o st).2.1 ∧
      (monitorCycle o st).errored = (monitorCycleCore o st).2.2.2 :=
    ⟨rfl, rfl, rfl⟩
  rw [hcore.1, hcore.2.1]
  rw [hcore.2.2] at h
  rw [monitorCycleCore_eq] at h ⊢
  have hcls := processGuessBatch_none_classified o.publish o.tgCall o.infoCall
    0 st.guessPending
  generalize hg : processGuessBatch o.publish o.tgCall o.infoCall 0 st.guessPending = r
    at h hcls ⊢
  obtain ⟨cs2, ps2, er⟩ := r
  cases er with
  | some e => simp at h
  | none =>
    have hcs2 : cs2 = st.guessPending.map ObservedEvent.guess := hcls rfl
    simp [hcs2, observedOf]

/-- The monitoring loop sleeps 30s after a clean cycle and 60s after a
caught exception (lines 143 and 147). -/
theorem monitorCycle_sleep (o : MonitorOracles) (st : MonitorState) :
    (monitorCycle o st).sleep = if (monitorCycle o st).errored then 60 else 30 := rfl

/-- The daily-summary loop sleeps 86400s after a clean cycle and 3600s
after a caught exception (lines 204 and 208). -/
theorem dailyCycle_sleep (o : DailyOracles) :
    (dailyCycle o).sleep = if (dailyCycle o).errored then 3600 else 86400 := rfl

/-- The on-chain loop sleeps 3600s after a caught exception (line 262). -/
theorem onChainCycle_errored_sleep (t : WallClock) (o : OnChainOracles)
    (h : (onChainCycle t o).errored = true) : (onChainCycle t o).sleep = 3600 := by
  have h' : (onChainCycleCore t o).2.1 = true := h
  show (if (onChainCycleCore t o).2.1 then 3600 else
      if (onChainCycleCore t o).2.2 then 10800 else 900) = 3600
  rw [h']
  rfl

/-- Every run of the monitoring loop performs exactly `n` cycles, for
every behaviour of its collaborators, and sleeps 60s after an errored
cycle and 30s otherwise. -/
theorem runMonitor_spec (n : Nat) :
    ∀ (mo : Nat → MonitorOracles) (ma : Nat → MonitorArrivals) (st : MonitorState),
      (runMonitor mo ma n st).length = n ∧
      ∀ r ∈ runMonitor mo ma n st, r.sleep = if r.errored then 60 else 30 := by
  induction n with
  | zero => intro mo ma st; exact ⟨rfl, by intro r hr; simp [runMonitor] at hr⟩
  | succ k ih =>
    intro mo ma st
    constructor
    · simp only [runMonitor, List.length_cons]
      rw [(ih _ _ _).1]
    · intro r hr
      simp only [runMonitor, List.mem_cons] at hr
      rcases hr with h | h
      · rw [h]; exact monitorCycle_sleep _ _
      · exact (ih _ _ _).2 r h

/-- Every run of the daily-summary loop performs exactly `n` cycles and
sleeps 3600s after an errored cycle and 86400s otherwise. -/
theorem runDaily_spec (n : Nat) :
    ∀ (o : Nat → DailyOracles),
      (runDaily o n).length = n ∧
      ∀ r ∈ runDaily o n, r.sleep = if r.errored then 3600 else 86400 := by
  induction n with
  | zero => intro o; exact ⟨rfl, by intro r hr; simp [runDaily] at hr⟩
  | succ k ih =>
    intro o
    constructor
    · simp only [runDaily, List.length_cons]
      rw [(ih _).1]
    · intro r hr
      simp only [runDaily, List.mem_cons] at hr
      rcases hr with h | h
      · rw [h]; exact dailyCycle_sleep _
      · exact (ih _).2 r h

/-- Every run of the on-chain loop performs exactly `n` cycles and
sleeps 3600s after an errored cycle. -/
theorem runOnChain_spec (n : Nat) :
    ∀ (t : Nat → WallClock) (o : Nat → OnChainOracles),
      (runOnChain t o n).length = n ∧
      ∀ r ∈ runOnChain t o n, r.errored = true → r.sleep = 3600 := by
  induction n with
  | zero => intro t o; exact ⟨rfl, by intro r hr; simp [runOnChain] at hr⟩
  | succ k ih =>
    intro t o
    constructor
    · simp only [runOnChain, List.length_cons]
      rw [(ih _ _).1]
    · intro r hr
      simp only [runOnChain, List.mem_cons] at hr
      rcases hr with h | h
      · rw [h]; exact onChainCycle_errored_sleep _ _
      · exact (ih _ _).2 r h

/-- C2: every exception raised inside a task's loop body is caught at
that task's boundary and converted to a logged error plus the
error-delay sleep; for every sequence of collaborator behaviours
(including arbitrary failures) each of the three task loops performs
every one of its `n` cycles — no error terminates a loop, and each
loop's outcome depends only on its own collaborators. -/
theorem c2_error_isolation (mo : Nat → MonitorOracles) (ma : Nat → MonitorArrivals)
    (st : MonitorState) (dailyO : Nat → DailyOracles) (clocks : Nat → WallClock)
    (ocO : Nat → OnChainOracles) (n : Nat) :
    ((runMonitor mo ma n st).length = n ∧
      ∀ r ∈ runMonitor mo ma n st, r.sleep = if r.errored then 60 else 30) ∧
    ((runDaily dailyO n).length = n ∧
      ∀ r ∈ runDaily dailyO n, r.sleep = if r.errored then 3600 else 86400) ∧
    ((runOnChain clocks ocO n).length = n ∧
      ∀ r ∈ runOnChain clocks ocO n, r.errored = true → r.sleep = 3600) :=
  ⟨runMonitor_spec n mo ma st, runDaily_spec n dailyO, runOnChain_spec n clocks ocO⟩

/-- Witness for C2 at one cycle with every chain read failing. -/
theorem c2_error_isolation_witness :
    ((runMonitor (fun _ => failMonitorOracles) (fun _ => noArrivals) 1
        (pendingState [] [⟨"p1"⟩] [] [])).length = 1 ∧
      ∀ r ∈ runMonitor (fun _ => failMonitorOracles) (fun _ => noArrivals) 1
        (pendingState [] [⟨"p1"⟩] [] []), r.sleep = if r.errored then 60 else 30) ∧
    ((runDaily (fun _ => failDailyOracles) 1).length = 1 ∧
      ∀ r ∈ runDaily (fun _ => failDailyOracles) 1,
        r.sleep = if r.errored then 3600 else 86400) ∧
    ((runOnChain (fun _ => noonClock) (fun _ => failOnChainOracles) 1).length = 1 ∧
      ∀ r ∈ runOnChain (fun _ => noonClock) (fun _ => failOnChainOracles) 1,
        r.errored = true → r.sleep = 3600) :=
  c2_error_isolation (fun _ => failMonitorOracles) (fun _ => noArrivals)
    (pendingState [] [⟨"p1"⟩] [] []) (fun _ => failDailyOracles)
    (fun _ => noonClock) (fun _ => failOnChainOracles) 1

/-- C3 fails on the daily summary task: its error delay (3600s,
line 208) is shorter than its idle delay (86400s, line 204). -/
theorem c3_counterexample :
    (dailyCycle failDailyOracles).errored = true ∧
    (dailyCycle failDailyOracles).sleep = 3600 ∧
    (dailyCycle ⟨okPublish, Except.ok sampleInfo⟩).errored = false ∧
    (dailyCycle ⟨okPublish, Except.ok sampleInfo⟩).sleep = 86400 ∧
    ¬ (86400 ≤ 3600) := by decide

/-- C3 amended: the monitoring task's error delay (60s) is at least its
idle delay (30s), but the daily summary task's error delay (3600s) is
below its idle delay (86400s). -/
theorem c3_amended_delays (mo : MonitorOracles) (st : MonitorState)
    (dailyO : DailyOracles) :
    (monitorCycle mo st).sleep = (if (monitorCycle mo st).errored then 60 else 30) ∧
    (dailyCycle dailyO).sleep = (if (dailyCycle dailyO).errored then 3600 else 86400) ∧
    30 ≤ 60 ∧ ¬ (86400 ≤ 3600) :=
  ⟨monitorCycle_sleep mo st, dailyCycle_sleep dailyO, by omega, by omega⟩

/-- C4: the published message never exceeds 280 characters; a truncated
message is the first 277 characters of the body followed verbatim by
the fixed 3-character ellipsis. -/
theorem c4_truncation (body : List Char) :
    (trimTweet body).length ≤ 280 ∧
    (280 < body.length →
      trimTweet body = body.take 277 ++ "...".data ∧
      (trimTweet body).take 277 = body.take 277 ∧
      ("...".data).length = 3) := by
  by_cases h : 280 < body.length
  · have hlen : (body.take 277).length = 277 := by
      rw [List.length_take]
      omega
    have htrim : trimTweet body = body.take 277 ++ "...".data := by
      unfold trimTweet
      rw [if_pos h]
    constructor
    · rw [htrim, List.length_append, hlen]
      decide
    · intro _
      refine ⟨htrim, ?_, by decide⟩
      rw [htrim, List.take_append_of_le_length (by rw [hlen]),
        List.take_of_length_le (le_of_eq hlen)]
  · have htrim : trimTweet body = body := by
      unfold trimTweet
      rw [if_neg h]
    exact ⟨by rw [htrim]; omega, fun hc => absurd hc h⟩

/-- Witness for C4 on a 300-character body. -/
theorem c4_truncation_witness :
    (trimTweet (List.replicate 300 'x')).length ≤ 280 ∧
    trimTweet (List.replicate 300 'x') =
      (List.replicate 300 'x').take 277 ++ "...".data := by
  have h := c4_truncation (List.replicate 300 'x')
  exact ⟨h.1, (h.2 (by rw [List.length_replicate]; omega)).1⟩

/-- C9: `post_to_twitter` never raises to its caller: it returns `True`
exactly when the formatted message was handed to the publisher
successfully and `False` exactly when an exception occurred inside. -/
theorem c9_post_never_raises (publish : List Char → Except AgentError Unit)
    (announcementType message : String) :
    (post_to_twitter publish announcementType message = Except.ok true ∧
      post_body publish announcementType message = Except.ok ()) ∨
    (post_to_twitter publish announcementType message = Except.ok false ∧
      ∃ e, post_body publish announcementType message = Except.error e) := by
  cases hb : post_body publish announcementType message with
  | ok u =>
    left
    cases u
    exact ⟨by simp [post_to_twitter, hb], rfl⟩
  | error e =>
    right
    exact ⟨by simp [post_to_twitter, hb], e, rfl⟩

/-- `revealPosts` on an empty batch. -/
theorem revealPosts_nil (pyHash : String → Int) : revealPosts pyHash [] = [] := rfl

/-- C1 as stated is false: the filters advance their cursor at fetch
time, so when the chain read for the first of two pending
`GuessCommitted` events raises, the guess cursor still reaches the
chain head (100) although the second event was never passed to the
classifier. -/
theorem c1_counterexample :
    (monitorCycle ⟨okPublish, fun _ => 0, fun _ => Except.error AgentError.transport,
        fun _ => Except.ok sampleInfo, 100⟩
      (pendingState [] [⟨"p1"⟩, ⟨"p2"⟩] [] [])).state.guessCursor = 100 ∧
    ObservedEvent.guess ⟨"p2"⟩ ∉
      (monitorCycle ⟨okPublish, fun _ => 0, fun _ => Except.error AgentError.transport,
          fun _ => Except.ok sampleInfo, 100⟩
        (pendingState [] [⟨"p1"⟩, ⟨"p2"⟩] [] [])).classified := by decide

/-- C1 amended: the social and guess cursors advance to the chain head
at fetch time in every cycle; a publish (reaction) failure never
changes which events are classified or aborts the batch; and whenever
the cycle completes without a chain-read exception, every pending event
was passed to the classifier and all cursors have advanced. -/
theorem c1_cursor_amended (o : MonitorOracles)
    (p : List Char → Except AgentError Unit) (st : MonitorState) :
    monitorCycle { o with publish := p } st = monitorCycle o st ∧
    (monitorCycle o st).state.socialCursor = o.latestHeight ∧
    (monitorCycle o st).state.guessCursor = o.latestHeight ∧
    ((monitorCycle o st).errored = false →
      (monitorCycle o st).classified = observedOf st ∧
      (monitorCycle o st).state.revealCursor = o.latestHeight ∧
      (monitorCycle o st).state.winCursor = o.latestHeight) :=
  ⟨monitorCycle_publish_irrel o p st,
   (monitorCycle_fetch_advances o st).1,
   (monitorCycle_fetch_advances o st).2,
   fun h => ⟨(monitorCycle_ok_classified o st h).1,
     (monitorCycle_ok_classified o st h).2.2.2⟩⟩

/-- Witness for C1 (amended) on a clean cycle with one social and one
guess event pending. -/
theorem c1_cursor_amended_witness :
    (monitorCycle okMonitorOracles (pendingState [⟨"A", "hi"⟩] [⟨"p1"⟩] [] [])).errored
        = false ∧
    (monitorCycle okMonitorOracles
        (pendingState [⟨"A", "hi"⟩] [⟨"p1"⟩] [] [])).classified =
      observedOf (pendingState [⟨"A", "hi"⟩] [⟨"p1"⟩] [] []) ∧
    (monitorCycle okMonitorOracles
        (pendingState [⟨"A", "hi"⟩] [⟨"p1"⟩] [] [])).state.revealCursor =
      okMonitorOracles.latestHeight := by
  have h : (monitorCycle okMonitorOracles
      (pendingState [⟨"A", "hi"⟩] [⟨"p1"⟩] [] [])).errored = false := by decide
  have ha := c1_cursor_amended okMonitorOracles okPublish
    (pendingState [⟨"A", "hi"⟩] [⟨"p1"⟩] [] [])
  exact ⟨h, (ha.2.2.2 h).1, (ha.2.2.2 h).2.1⟩

/-- C5: with the chain reporting `totalGuesses = tg`, processing one
pending `GuessCommitted` event posts a message iff `tg` is a multiple
of 10, and that message is the milestone announcement carrying the
snapshot fields. -/
theorem c5_milestone_iff (publish : List Char → Except AgentError Unit)
    (pyHash : String → Int) (lh tg : Nat) (info : JackpotInfo)
    (e : GuessCommittedEvent) :
    ((monitorCycle ⟨publish, pyHash, fun _ => Except.ok tg, fun _ => Except.ok info, lh⟩
        (pendingState [] [e] [] [])).posts ≠ [] ↔ tg % 10 = 0) ∧
    (monitorCycle ⟨publish, pyHash, fun _ => Except.ok tg, fun _ => Except.ok info, lh⟩
        (pendingState [] [e] [] [])).posts =
      (if tg % 10 = 0 then [milestonePost tg info] else []) := by
  have key : (monitorCycle ⟨publish, pyHash, fun _ => Except.ok tg,
      fun _ => Except.ok info, lh⟩ (pendingState [] [e] [] [])).posts =
      (if tg % 10 = 0 then [milestonePost tg info] else []) := by
    by_cases hmod : tg % 10 = 0
    · simp [monitorCycle, monitorCycleCore_eq, pendingState,
        processGuessBatch_const, revealPosts, hmod]
    · simp [monitorCycle, monitorCycleCore_eq, pendingState,
        processGuessBatch_const, revealPosts, hmod]
  refine ⟨?_, key⟩
  rw [key]
  by_cases hmod : tg % 10 = 0 <;> simp [hmod]

/-- C6: one pending `GuessRevealed` event produces a "nice try"
commentary post iff the guess lost, is longer than 5 characters, and
the per-process hash of the guess text is 0 mod 5. -/
theorem c6_nice_try_iff (publish : List Char → Except AgentError Unit)
    (pyHash : String → Int) (tgCall : Nat → Except AgentError Nat)
    (infoCall : Nat → Except AgentError JackpotInfo) (lh : Nat)
    (e : GuessRevealedEvent) :
    ((monitorCycle ⟨publish, pyHash, tgCall, infoCall, lh⟩
        (pendingState [] [] [e] [])).posts ≠ [] ↔
      (e.won = false ∧ 5 < e.guess.length ∧ pyHash e.guess % 5 = 0)) ∧
    (monitorCycle ⟨publish, pyHash, tgCall, infoCall, lh⟩
        (pendingState [] [] [e] [])).posts =
      (if e.won = false ∧ 5 < e.guess.length ∧ pyHash e.guess % 5 = 0
        then [interestingPost e.guess] else []) := by
  have key : (monitorCycle ⟨publish, pyHash, tgCall, infoCall, lh⟩
      (pendingState [] [] [e] [])).posts =
      (if e.won = false ∧ 5 < e.guess.length ∧ pyHash e.guess % 5 = 0
        then [interestingPost e.guess] else []) := by
    by_cases hcond : e.won = false ∧ 5 < e.guess.length ∧ pyHash e.guess % 5 = 0
    · have hrv : revealPosts pyHash [e] = [interestingPost e.guess] := by
        rw [revealPosts_cons_pos pyHash e [] hcond, revealPosts_nil]
      rw [if_pos hcond]
      simp [monitorCycle, monitorCycleCore_eq, pendingState, processGuessBatch, hrv]
    · have hrv : revealPosts pyHash [e] = [] := by
        rw [revealPosts_cons_neg pyHash e [] hcond, revealPosts_nil]
      rw [if_neg hcond]
      simp [monitorCycle, monitorCycleCore_eq, pendingState, processGuessBatch, hrv]
  refine ⟨?_, key⟩
  rw [key]
  by_cases hcond : e.won = false ∧ 5 < e.guess.length ∧ pyHash e.guess % 5 = 0 <;>
    simp [hcond]

/-- The "nice try" decision is not a function of the guess text, the
won flag and the length threshold alone: two process runs whose string
hash seeds give `hash("elephant") % 5 = 0` and `= 1` classify the same
losing `GuessRevealed{guess: "elephant"}` event differently. -/
theorem c7_hash_seed_dependence :
    (monitorCycle ⟨okPublish, fun _ => 0, fun _ => Except.ok 7,
        fun _ => Except.ok sampleInfo, 50⟩
      (pendingState [] [] [⟨"px", "elephant", false⟩] [])).posts ≠
    (monitorCycle ⟨okPublish, fun _ => 1, fun _ => Except.ok 7,
        fun _ => Except.ok sampleInfo, 50⟩
      (pendingState [] [] [⟨"px", "elephant", false⟩] [])).posts := by decide

/-- C8: the on-chain task hands a transaction to the chain only when
the wall clock reads hour 12 or 18 with minute below 5. -/
theorem c8_window_only (t : WallClock) (o : OnChainOracles)
    (h : (onChainCycle t o).submitted ≠ none) :
    (t.hour = 12 ∨ t.hour = 18) ∧ t.minute < 5 := by
  by_cases hc : (t.hour = 12 ∨ t.hour = 18) ∧ t.minute < 5
  · exact hc
  · exfalso
    apply h
    show (onChainCycleCore t o).1 = none
    unfold onChainCycleCore
    rw [if_neg hc]

/-- Witness for C8: inside the noon window with all chain calls
succeeding, a transaction is submitted. -/
theorem c8_window_only_witness :
    (onChainCycle windowClock okOnChainOracles).submitted ≠ none ∧
    (windowClock.hour = 12 ∨ windowClock.hour = 18) ∧ windowClock.minute < 5 :=
  have h : (onChainCycle windowClock okOnChainOracles).submitted ≠ none := by decide
  ⟨h, c8_window_only windowClock okOnChainOracles h⟩

/-- C10: the milestone decision re-reads `totalGuesses` per event, so a
batch of `GuessCommitted` events processed while the chain keeps
reporting one multiple of 10 yields one identical milestone post per
event — duplicates included. -/
theorem c10_duplicate_milestones (publish : List Char → Except AgentError Unit)
    (pyHash : String → Int) (lh tg : Nat) (info : JackpotInfo)
    (es : List GuessCommittedEvent) (h : tg % 10 = 0) :
    (monitorCycle ⟨publish, pyHash, fun _ => Except.ok tg, fun _ => Except.ok info, lh⟩
        (pendingState [] es [] [])).posts =
      es.map (fun _ => milestonePost tg info) := by
  simp [monitorCycle, monitorCycleCore_eq, pendingState,
    processGuessBatch_const, revealPosts, h]

/-- Witness for C10: two events in one batch at `totalGuesses = 30`
produce two identical milestone posts. -/
theorem c10_duplicate_milestones_witness :
    (monitorCycle ⟨okPublish, fun _ => 0, fun _ => Except.ok 30,
        fun _ => Except.ok sampleInfo, 100⟩
      (pendingState [] [⟨"p1"⟩, ⟨"p2"⟩] [] [])).posts =
      [milestonePost 30 sampleInfo, milestonePost 30 sampleInfo] := by
  rw [c10_duplicate_milestones okPublish (fun _ => 0) 100 30 sampleInfo
    [⟨"p1"⟩, ⟨"p2"⟩] (by decide)]
  rfl
